import Mathlib

/-!
Shallow embedding of braidlab's `entropy_helper.cpp` (the mex helper behind
`braid.entropy`) and of the fuzzy-equality utility `eqfuzzy.hpp`.

The embedding follows the C++ source line by line:

* `looplength` embeds the dispatcher `looplength(N, a, b, lengthFlag)`
  (entropy_helper.cpp lines 189-218): flags 0/1/2 select one of three metric
  functions, any other flag raises `badlengthflag`, and a negative metric
  value raises `badlength`.
* `initState` embeds the argument processing and pre-loop setup of
  `mexFunction` (even-length check, split of the flat vector into the
  half-vectors `a` and `b`, discount initialisation from the switch on the
  length flag, initial `currentLength`, `nconv = 0`, `entr0 = -1`).
* `iterStep` embeds one body of the main `for` loop (lines 135-178):
  renormalisation of `a`, `b` and `discount` by `currentLength`, the braid
  action, the fresh length, `entr = log currentLength`, and the convergence
  bookkeeping with its break / reset rules.
* `iterLoop` embeds the `for (it = 1; it <= maxit; ++it)` control flow; the
  returned `Bool` records whether the loop exited through the convergence
  `break` (`true`) or by exhausting the budget (`false`).
* `entropy_run` / `entropy_helper` assemble the whole call and the three
  outputs (entropy estimate, iteration count, flat output vector).

Machine doubles are modelled by real numbers.  The two metric functions
`intaxis` and `minlength` and the per-generator piecewise-linear update live
in headers outside the covered sources (`loop_helper.hpp`,
`update_rules.hpp`); following the specification they are treated as
injected external collaborators: the metrics are fields of a `Metrics`
parameter, the braid action is a per-generator function folded over the
braid word, and the Euclidean metric (`sqrt(l2norm2)`) is modelled
concretely from the specification's description.
-/

namespace Braidlab

/-- Fatal error identifiers raised through `mexErrMsgIdAndTxt` in
`entropy_helper.cpp`: `badarg` (shape validation), `badlengthflag`
(unsupported metric selector), `badlength` (negative metric value). -/
inductive MexErr
  | badarg
  | badlengthflag
  | badlength
  deriving DecidableEq

/-- Modelled from the spec: the two loop-length metrics whose implementations
(`intaxis`, `minlength` in `loop_helper.hpp`) are outside the covered
sources.  The specification fixes only that they are pure functions of the
coordinate vector; they enter the embedding as injected collaborators. -/
structure Metrics where
  intaxis : List ℝ → List ℝ → ℝ
  minlength : List ℝ → List ℝ → ℝ

/-- Modelled from the spec: the squared Euclidean length of the coordinate
vector (`l2norm2` in `loop_helper.hpp`, outside the covered sources), the
sum of the squares of all entries of the two half-vectors. -/
noncomputable def l2norm2 (a b : List ℝ) : ℝ :=
  (a.map (fun x => x ^ 2)).sum + (b.map (fun x => x ^ 2)).sum

/-- Embedding of `looplength(N, a, b, lengthFlag)` from entropy_helper.cpp:
dispatch on the length flag (0 `intaxis`, 1 `minlength`, 2 Euclidean), an
unsupported flag raises `badlengthflag` before any length is produced, and a
negative metric value raises `badlength` instead of being returned. -/
noncomputable def looplength (M : Metrics) (a b : List ℝ) (lengthFlag : ℤ) :
    Except MexErr ℝ :=
  let dispatch : Except MexErr ℝ :=
    if lengthFlag = 0 then .ok (M.intaxis a b)
    else if lengthFlag = 1 then .ok (M.minlength a b)
    else if lengthFlag = 2 then .ok (Real.sqrt (l2norm2 a b))
    else .error .badlengthflag
  match dispatch with
  | .error e => .error e
  | .ok retval => if retval < 0 then .error .badlength else .ok retval

/-- Shape of a per-generator braid action: one signed generator applied to
the pair of half-vectors. -/
def GenAction : Type := ℤ → List ℝ × List ℝ → List ℝ × List ℝ

/-- Modelled from the spec: `update_rules(Ngen, n, braidword, a, b)` from
`update_rules.hpp` (outside the covered sources) applies the whole braid
word to the coordinates, one generator at a time in order; the
piecewise-linear rule for a single generator is the injected parameter. -/
def update_rules (gen : GenAction) (braidword : List ℤ)
    (ab : List ℝ × List ℝ) : List ℝ × List ℝ :=
  braidword.foldl (fun p g => gen g p) ab

/-- The mutable state of `mexFunction`'s main loop: the half-vectors `a`,
`b`, the discount, the current length, the consecutive-convergence counter
`nconv`, and the current and previous log-growth estimates `entr`, `entr0`.
In the C++ source `entr` is declared without an initial value; the field is
initialised to `0` here and is overwritten by every loop iteration. -/
structure IterState where
  a : List ℝ
  b : List ℝ
  discount : ℝ
  currentLength : ℝ
  nconv : ℤ
  entr : ℝ
  entr0 : ℝ

/-- The renormalisation step at the top of each loop iteration (lines
138-143): every entry of `a` and `b` and the discount are divided by the
length `L` computed at the end of the previous iteration. -/
noncomputable def rescale (L : ℝ) (a b : List ℝ) (d : ℝ) :
    List ℝ × List ℝ × ℝ :=
  (a.map (fun x => x / L), b.map (fun x => x / L), d / L)

/-- The tail of one loop body once the fresh raw length `l` has been
obtained (lines 148-177): `currentLength = l - discount`,
`entr = log currentLength`, then the convergence test: a below-tolerance
difference increments `nconv` and breaks once `nconv` reaches `nconvreq`
(leaving `entr0` untouched, as the `break` skips the `entr0 = entr`
assignment); an at/above-tolerance difference resets a positive `nconv` to
zero.  `ab` is the pair of half-vectors after the braid action and `d1` the
rescaled discount.  The returned `Bool` is `true` exactly when the C++
`break` fires. -/
noncomputable def stepUpdate (tol : ℝ) (nconvreq : ℤ) (s : IterState)
    (ab : List ℝ × List ℝ) (d1 l : ℝ) : Bool × IterState :=
  let cl := l - d1
  let entr := Real.log cl
  if |entr - s.entr0| < tol then
    if s.nconv + 1 ≥ nconvreq then
      (true, ⟨ab.1, ab.2, d1, cl, s.nconv + 1, entr, s.entr0⟩)
    else
      (false, ⟨ab.1, ab.2, d1, cl, s.nconv + 1, entr, entr⟩)
  else
    (false, ⟨ab.1, ab.2, d1, cl,
      if s.nconv > 0 then 0 else s.nconv, entr, entr⟩)

/-- One body of the main loop (lines 135-178): rescale the coordinates and
the discount by the previous `currentLength`, act with the braid word,
recompute the length through `looplength` (any fatal condition aborts the
call), and finish with the pure bookkeeping of `stepUpdate`. -/
noncomputable def iterStep (M : Metrics) (gen : GenAction) (braidword : List ℤ)
    (tol : ℝ) (nconvreq lengthFlag : ℤ) (s : IterState) :
    Except MexErr (Bool × IterState) :=
  let r := rescale s.currentLength s.a s.b s.discount
  let ab := update_rules gen braidword (r.1, r.2.1)
  match looplength M ab.1 ab.2 lengthFlag with
  | .error e => .error e
  | .ok l => .ok (stepUpdate tol nconvreq s ab r.2.2 l)

/-- Embedding of `for (it = 1; it <= maxit; ++it)`: `fuel` is the number of
loop-condition successes still available and `it` the current loop counter;
falling out of the loop returns the counter as the C++ loop leaves it
(`maxit + 1` when `maxit ≥ 0`), a convergence break returns the counter of
the breaking iteration.  The `Bool` in the result records whether the loop
exited through the break. -/
noncomputable def iterLoop (M : Metrics) (gen : GenAction) (braidword : List ℤ)
    (tol : ℝ) (nconvreq lengthFlag : ℤ) :
    ℕ → ℤ → IterState → Except MexErr (ℤ × IterState × Bool)
  | 0, it, s => .ok (it, s, false)
  | fuel + 1, it, s =>
    match iterStep M gen braidword tol nconvreq lengthFlag s with
    | .error e => .error e
    | .ok (brk, s') =>
      if brk then .ok (it, s', true)
      else iterLoop M gen braidword tol nconvreq lengthFlag fuel (it + 1) s'

/-- The discount switch on the length flag (lines 121-131): under metric 0
the discount is `n - (isFundamental ? 1 : 0) - 1` for puncture count `n`;
under every other flag it is `0`. -/
noncomputable def discountInit (n lengthFlag : ℤ) (isFundamental : Bool) :
    ℝ :=
  if lengthFlag = 0 then (n : ℝ) - (if isFundamental then 1 else 0) - 1
  else 0

/-- Embedding of `mexFunction`'s pre-loop setup: the even-length validation,
the split of the flat vector `u` into the half-vectors (`a[k] = u[k-1]`,
`b[k] = u[k-1+N/2]`), the puncture count `n = N/2 + 2`, the discount switch
`discountInit`, the initial `currentLength = looplength(...) - discount`,
and the initial iteration bookkeeping `nconv = 0`, `entr0 = -1`. -/
noncomputable def initState (M : Metrics) (u : List ℝ) (lengthFlag : ℤ)
    (isFundamental : Bool) : Except MexErr IterState :=
  if u.length % 2 ≠ 0 then .error .badarg
  else
    let m := u.length / 2
    let n : ℤ := (m : ℤ) + 2
    let a := u.take m
    let b := u.drop m
    let discount : ℝ := discountInit n lengthFlag isFundamental
    match looplength M a b lengthFlag with
    | .error e => .error e
    | .ok l => .ok ⟨a, b, discount, l - discount, 0, 0, -1⟩

/-- The whole call, instrumented: setup followed by the main loop, returning
the final loop counter, the final state and whether the run exited through
the convergence break. -/
noncomputable def entropy_run (M : Metrics) (gen : GenAction)
    (braidword : List ℤ) (u : List ℝ) (maxit nconvreq : ℤ) (tol : ℝ)
    (lengthFlag : ℤ) (isFundamental : Bool) :
    Except MexErr (ℤ × IterState × Bool) :=
  match initState M u lengthFlag isFundamental with
  | .error e => .error e
  | .ok s0 =>
    iterLoop M gen braidword tol nconvreq lengthFlag maxit.toNat 1 s0

/-- The three outputs of `mexFunction`: the entropy estimate, the iteration
count and the flat output vector (final `a` followed by final `b`). -/
structure MexOutput where
  entropy : ℝ
  iterates : ℤ
  loop_out : List ℝ

/-- Embedding of the full `mexFunction` call: any fatal condition aborts the
call with no output; otherwise the final `entr`, the loop counter and the
flattened final coordinates are returned. -/
noncomputable def entropy_helper (M : Metrics) (gen : GenAction)
    (braidword : List ℤ) (u : List ℝ) (maxit nconvreq : ℤ) (tol : ℝ)
    (lengthFlag : ℤ) (isFundamental : Bool) : Except MexErr MexOutput :=
  match entropy_run M gen braidword u maxit nconvreq tol lengthFlag
      isFundamental with
  | .error e => .error e
  | .ok (it, s, _) => .ok ⟨s.entr, it, s.a ++ s.b⟩

/-- Embedding of `eqfuzzy.hpp`: equality of two doubles up to an absolute
tolerance. -/
def eqfuzzy (a b AbsTol : ℝ) : Prop := |a - b| < AbsTol

/-- A concrete admissible metric collaborator: both external metrics return
`0`, which satisfies the non-negativity contract enforced by `looplength`. -/
def zeroMetrics : Metrics := ⟨fun _ _ => 0, fun _ _ => 0⟩

/-- A metric collaborator that violates the non-negativity contract: both
external metrics return `-1`. -/
def negMetrics : Metrics := ⟨fun _ _ => -1, fun _ _ => -1⟩

/-- The identity braid action: every generator leaves the coordinates
unchanged. -/
def idGen : GenAction := fun _ ab => ab

/-- Any value `looplength` actually returns has passed the `retval < 0`
check, hence is non-negative. -/
theorem looplength_ok_nonneg {M : Metrics} {a b : List ℝ} {lengthFlag : ℤ}
    {v : ℝ} (h : looplength M a b lengthFlag = .ok v) : 0 ≤ v := by
  unfold looplength at h
  by_cases h0 : lengthFlag = 0 <;> by_cases h1 : lengthFlag = 1 <;>
    by_cases h2 : lengthFlag = 2 <;>
    simp only [h0, h1, h2, if_true, if_false] at h <;>
    (try split at h) <;> (try split at h) <;> simp_all

/-- The state produced by `stepUpdate` always stores the rescaled discount
`d1` it was given. -/
theorem stepUpdate_discount (tol : ℝ) (nconvreq : ℤ) (s : IterState)
    (ab : List ℝ × List ℝ) (d1 l : ℝ) :
    (stepUpdate tol nconvreq s ab d1 l).2.discount = d1 := by
  simp only [stepUpdate]
  repeat' split
  all_goals rfl

/-- The state produced by `stepUpdate` always stores
`entr = log (l - d1)`. -/
theorem stepUpdate_entr (tol : ℝ) (nconvreq : ℤ) (s : IterState)
    (ab : List ℝ × List ℝ) (d1 l : ℝ) :
    (stepUpdate tol nconvreq s ab d1 l).2.entr = Real.log (l - d1) := by
  simp only [stepUpdate]
  repeat' split
  all_goals rfl

/-- The state produced by `stepUpdate` always stores
`currentLength = l - d1`. -/
theorem stepUpdate_currentLength (tol : ℝ) (nconvreq : ℤ) (s : IterState)
    (ab : List ℝ × List ℝ) (d1 l : ℝ) :
    (stepUpdate tol nconvreq s ab d1 l).2.currentLength = l - d1 := by
  simp only [stepUpdate]
  repeat' split
  all_goals rfl

/-- The consecutive-convergence counter after `stepUpdate`: incremented on a
below-tolerance difference, otherwise reset to zero when positive and left
unchanged when not. -/
theorem stepUpdate_nconv (tol : ℝ) (nconvreq : ℤ) (s : IterState)
    (ab : List ℝ × List ℝ) (d1 l : ℝ) :
    (stepUpdate tol nconvreq s ab d1 l).2.nconv =
      if |Real.log (l - d1) - s.entr0| < tol then s.nconv + 1
      else if s.nconv > 0 then 0 else s.nconv := by
  simp only [stepUpdate]
  repeat' split
  all_goals simp_all

/-- The break flag of `stepUpdate` is `true` exactly when the difference is
below tolerance and the incremented counter reaches `nconvreq`. -/
theorem stepUpdate_brk (tol : ℝ) (nconvreq : ℤ) (s : IterState)
    (ab : List ℝ × List ℝ) (d1 l : ℝ) :
    (stepUpdate tol nconvreq s ab d1 l).1 = true ↔
      (|Real.log (l - d1) - s.entr0| < tol ∧ s.nconv + 1 ≥ nconvreq) := by
  simp only [stepUpdate]
  repeat' split
  all_goals simp_all

/-- Inversion for a successful `iterStep`: the raw length came from a
successful `looplength` call on the transformed rescaled coordinates, and
the result is `stepUpdate` applied to the rescaled discount and that raw
length. -/
theorem iterStep_ok_elim {M : Metrics} {gen : GenAction} {braidword : List ℤ}
    {tol : ℝ} {nconvreq lengthFlag : ℤ} {s : IterState} {p : Bool × IterState}
    (h : iterStep M gen braidword tol nconvreq lengthFlag s = .ok p) :
    ∃ l, looplength M
        (update_rules gen braidword
          ((rescale s.currentLength s.a s.b s.discount).1,
           (rescale s.currentLength s.a s.b s.discount).2.1)).1
        (update_rules gen braidword
          ((rescale s.currentLength s.a s.b s.discount).1,
           (rescale s.currentLength s.a s.b s.discount).2.1)).2
        lengthFlag = .ok l ∧
      p = stepUpdate tol nconvreq s
        (update_rules gen braidword
          ((rescale s.currentLength s.a s.b s.discount).1,
           (rescale s.currentLength s.a s.b s.discount).2.1))
        ((rescale s.currentLength s.a s.b s.discount).2.2) l := by
  simp only [iterStep] at h
  split at h
  · exact absurd h (by simp)
  · exact ⟨_, by assumption, by injection h with h; exact h.symm⟩

/-- Inversion for a successful `initState`: the vector length is even, the
initial `looplength` call succeeded, and the initial state is built from
the two half-vectors, `discountInit`, `nconv = 0` and `entr0 = -1`. -/
theorem initState_ok_elim {M : Metrics} {u : List ℝ} {lengthFlag : ℤ}
    {isFundamental : Bool} {s : IterState}
    (h : initState M u lengthFlag isFundamental = .ok s) :
    u.length % 2 = 0 ∧
    ∃ l, looplength M (u.take (u.length / 2)) (u.drop (u.length / 2))
        lengthFlag = .ok l ∧
      s = ⟨u.take (u.length / 2), u.drop (u.length / 2),
        discountInit (((u.length / 2 : ℕ) : ℤ) + 2) lengthFlag isFundamental,
        l - discountInit (((u.length / 2 : ℕ) : ℤ) + 2) lengthFlag
          isFundamental,
        0, 0, -1⟩ := by
  simp only [initState] at h
  split at h
  · simp at h
  · split at h
    · simp at h
    · exact ⟨by omega, _, by assumption, by injection h with h; exact h.symm⟩

/-- C8: for every coordinate vector and metric selector, a negative value
returned by the underlying metric function makes `looplength` report the
fatal negative-length error on that very call (shown for the two external
metrics, flags 0 and 1; the Euclidean square root is never negative), and
consequently every value `looplength` actually returns is non-negative. -/
theorem c8_looplength_negative_metric_fatal (M : Metrics) (a b : List ℝ) :
    (M.intaxis a b < 0 → looplength M a b 0 = .error .badlength) ∧
    (M.minlength a b < 0 → looplength M a b 1 = .error .badlength) ∧
    (∀ lengthFlag v, looplength M a b lengthFlag = .ok v → 0 ≤ v) := by
  refine ⟨fun h => ?_, fun h => ?_,
    fun lengthFlag v h => looplength_ok_nonneg h⟩ <;>
  simp [looplength, h]

/-- Witness for C8 at the contract-violating metrics returning `-1` on the
vector `[1,0]`, and at flag 2 where `looplength` returns `1 ≥ 0`. -/
theorem c8_witness :
    looplength negMetrics [1] [0] 0 = .error .badlength ∧
    looplength negMetrics [1] [0] 1 = .error .badlength ∧
    (0 : ℝ) ≤ 1 := by
  have h := c8_looplength_negative_metric_fatal negMetrics [1] [0]
  refine ⟨h.1 (by norm_num [negMetrics]), h.2.1 (by norm_num [negMetrics]),
    h.2.2 2 1 ?_⟩
  norm_num [looplength, l2norm2, Real.sqrt_one]

/-- C7: on every successful loop iteration the discount is divided by
exactly the same divisor (the previous `currentLength`) as the coordinates:
the discount stored in the resulting state is the previous discount divided
by `currentLength`, and the rescale step maps every entry of `a` and `b` to
that entry divided by the same `currentLength`. -/
theorem c7_discount_same_divisor (M : Metrics) (gen : GenAction)
    (braidword : List ℤ) (tol : ℝ) (nconvreq lengthFlag : ℤ) (s : IterState)
    (d : ℝ)
    (h : Except.map (fun p => (Prod.snd p).discount)
        (iterStep M gen braidword tol nconvreq lengthFlag s) = .ok d) :
    d = s.discount / s.currentLength ∧
    (∀ i : ℕ, ((rescale s.currentLength s.a s.b s.discount).1)[i]? =
      Option.map (fun x => x / s.currentLength) s.a[i]?) ∧
    (∀ i : ℕ, ((rescale s.currentLength s.a s.b s.discount).2.1)[i]? =
      Option.map (fun x => x / s.currentLength) s.b[i]?) := by
  refine ⟨?_, fun i => by simp [rescale], fun i => by simp [rescale]⟩
  cases hi : iterStep M gen braidword tol nconvreq lengthFlag s with
  | error e => rw [hi] at h; exact absurd h (by simp [Except.map])
  | ok p =>
    rw [hi] at h
    obtain ⟨l, _, hp⟩ := iterStep_ok_elim hi
    simp only [Except.map, Except.ok.injEq] at h
    rw [← h, hp, stepUpdate_discount]
    simp [rescale]

/-- Witness for C7 at a concrete discount-free state of length 1 with
`currentLength = 1`: the stored discount is `0 / 1` and the first
coordinate is rescaled by the same divisor. -/
theorem c7_witness :
    (0 : ℝ) = 0 / 1 ∧
    ((rescale 1 [1] [0] 0).1)[0]? =
      Option.map (fun x => x / 1) [(1 : ℝ)][0]? := by
  have h := c7_discount_same_divisor zeroMetrics idGen [] 1 5 2
    ⟨[1], [0], 0, 1, 0, 0, -1⟩ 0
    (by norm_num [iterStep, stepUpdate, rescale, update_rules, looplength,
      l2norm2, zeroMetrics, idGen, Except.map, Real.sqrt_one, Real.log_one])
  exact ⟨h.1, h.2.1 0⟩

/-- C6: on every successful loop iteration (with `e` the fresh log-growth
estimate), an at/above-tolerance difference after the consecutive-stable
counter has become positive sets the counter back to exactly zero and the
loop continues; a below-tolerance difference increments the counter by one;
and the convergence break fires exactly when the difference is below
tolerance and the incremented counter reaches `nconvreq`. -/
theorem c6_streak_reset_and_break (M : Metrics) (gen : GenAction)
    (braidword : List ℤ) (tol : ℝ) (nconvreq lengthFlag : ℤ) (s : IterState)
    (brk : Bool) (nc : ℤ) (e : ℝ)
    (h : Except.map (fun p => (p.1, (Prod.snd p).nconv, (Prod.snd p).entr))
        (iterStep M gen braidword tol nconvreq lengthFlag s) =
      .ok (brk, nc, e)) :
    (¬ |e - s.entr0| < tol → (0 < s.nconv → nc = 0) ∧ brk = false) ∧
    (|e - s.entr0| < tol → nc = s.nconv + 1) ∧
    (brk = true ↔ (|e - s.entr0| < tol ∧ s.nconv + 1 ≥ nconvreq)) := by
  cases hi : iterStep M gen braidword tol nconvreq lengthFlag s with
  | error err => rw [hi] at h; exact absurd h (by simp [Except.map])
  | ok p =>
    rw [hi] at h
    obtain ⟨l, _, hp⟩ := iterStep_ok_elim hi
    simp only [Except.map, Except.ok.injEq, Prod.mk.injEq] at h
    obtain ⟨hb, hn, he⟩ := h
    subst hb hn he hp
    simp only [stepUpdate]
    repeat' split
    all_goals simp_all

/-- Witness for C6 at a state with a positive counter (`nconv = 1`) and an
out-of-tolerance previous estimate (`entr0 = 5`): the counter is reset to
zero and no break fires. -/
theorem c6_witness :
    (¬ |(0 : ℝ) - 5| < 1 → (0 < (1 : ℤ) → (0 : ℤ) = 0) ∧ false = false) ∧
    (|(0 : ℝ) - 5| < 1 → (0 : ℤ) = 1 + 1) ∧
    (false = true ↔ (|(0 : ℝ) - 5| < 1 ∧ (1 : ℤ) + 1 ≥ 3)) := by
  have h := c6_streak_reset_and_break zeroMetrics idGen [] 1 3 2
    ⟨[1], [0], 0, 1, 1, 0, 5⟩ false 0 0 ?_
  · exact h
  · norm_num [iterStep, rescale, update_rules, looplength, l2norm2,
      stepUpdate, zeroMetrics, idGen, Real.sqrt_one, Real.log_one, Except.map]

/-- A run of `iterLoop` that never exits through the convergence break
advances the loop counter past every available iteration, exactly as the
C++ `for` loop leaves `it`. -/
theorem iterLoop_no_break (M : Metrics) (gen : GenAction) (braidword : List ℤ)
    (tol : ℝ) (nconvreq lengthFlag : ℤ) :
    ∀ (fuel : ℕ) (it : ℤ) (s : IterState) (it' : ℤ) (s' : IterState),
      iterLoop M gen braidword tol nconvreq lengthFlag fuel it s =
        .ok (it', s', false) → it' = it + fuel := by
  intro fuel
  induction fuel with
  | zero =>
    intro it s it' s' h
    simp only [iterLoop, Except.ok.injEq, Prod.mk.injEq] at h
    omega
  | succ n ih =>
    intro it s it' s' h
    simp only [iterLoop] at h
    split at h
    · simp at h
    · split at h
      · simp at h
      · have := ih (it + 1) _ it' s' h
        omega

/-- A whole run that exits with the no-break flag returns the loop counter
`maxit + 1` (for a non-negative iteration budget). -/
theorem entropy_run_no_break_count {M : Metrics} {gen : GenAction}
    {braidword : List ℤ} {u : List ℝ} {maxit nconvreq : ℤ} {tol : ℝ}
    {lengthFlag : ℤ} {isFundamental : Bool} {it : ℤ} {s : IterState}
    (hm : 0 ≤ maxit)
    (h : entropy_run M gen braidword u maxit nconvreq tol lengthFlag
        isFundamental = .ok (it, s, false)) : it = maxit + 1 := by
  unfold entropy_run at h
  split at h
  · simp at h
  · have := iterLoop_no_break M gen braidword tol nconvreq lengthFlag
      maxit.toNat 1 _ it s h
    omega

/-- C3: for every input on which the loop exhausts all `maxit` iterations
without the convergence break ever firing (the no-break flag of the run),
the estimator terminates normally with iteration count `maxit + 1`. -/
theorem c3_exhaustion_returns_maxit_succ (M : Metrics) (gen : GenAction)
    (braidword : List ℤ) (u : List ℝ) (maxit nconvreq : ℤ) (tol : ℝ)
    (lengthFlag : ℤ) (isFundamental : Bool) (it : ℤ)
    (hm : 0 ≤ maxit)
    (h : Except.map (fun r => (r.1, Prod.snd (Prod.snd r)))
        (entropy_run M gen braidword u maxit nconvreq tol lengthFlag
          isFundamental) = .ok (it, false)) :
    it = maxit + 1 := by
  cases hr : entropy_run M gen braidword u maxit nconvreq tol lengthFlag
      isFundamental with
  | error e => rw [hr] at h; exact absurd h (by simp [Except.map])
  | ok r =>
    obtain ⟨it0, s0, b0⟩ := r
    rw [hr] at h
    simp only [Except.map, Except.ok.injEq, Prod.mk.injEq] at h
    obtain ⟨h1, h2⟩ := h
    subst h1 h2
    exact entropy_run_no_break_count hm hr

/-- Witness for C3: the empty braid word on `[1,0]` with `maxit = 1`,
`nconvreq = 2`, `tol = 1e-9` and the Euclidean metric never fires the break
and returns iteration count `2 = 1 + 1`. -/
theorem c3_witness : (0 : ℤ) ≤ 1 ∧ (2 : ℤ) = 1 + 1 := by
  refine ⟨by norm_num, c3_exhaustion_returns_maxit_succ zeroMetrics idGen []
    [1, 0] 1 2 (1e-9) 2 false 2 (by norm_num) ?_⟩
  norm_num [entropy_run, initState, discountInit, iterLoop, iterStep, stepUpdate, rescale,
    update_rules, looplength, l2norm2, zeroMetrics, idGen, Except.map,
    Real.sqrt_one, Real.log_one]

/-- Counterexample for C4: on the empty braid word with `[1,0]`,
`maxit = 1`, `nconvreq = 2`, `tol = 1e-9`, Euclidean metric, the required
streak is never reached (no-break flag `false`) yet the returned iteration
count is `2`, not `maxit = 1`. -/
theorem c4_counterexample :
    Except.map (fun r => (r.1, Prod.snd (Prod.snd r)))
        (entropy_run zeroMetrics idGen [] [1, 0] 1 2 (1e-9) 2 false) =
      .ok (2, false) ∧ (2 : ℤ) ≠ 1 := by
  constructor
  · norm_num [entropy_run, initState, discountInit, iterLoop, iterStep, stepUpdate, rescale,
      update_rules, looplength, l2norm2, zeroMetrics, idGen, Except.map,
      Real.sqrt_one, Real.log_one]
  · norm_num

/-- C4 amended: for every input on which the required consecutive-stable
streak is never reached within the iteration budget, the iteration count in
the produced output equals `maxit + 1` (not `maxit`); this is how
non-convergence is signaled to the caller. -/
theorem c4_amended_nonconvergence_count (M : Metrics) (gen : GenAction)
    (braidword : List ℤ) (u : List ℝ) (maxit nconvreq : ℤ) (tol : ℝ)
    (lengthFlag : ℤ) (isFundamental : Bool) (it : ℤ) (s : IterState)
    (hm : 0 ≤ maxit)
    (h : entropy_run M gen braidword u maxit nconvreq tol lengthFlag
        isFundamental = .ok (it, s, false)) :
    Except.map MexOutput.iterates
        (entropy_helper M gen braidword u maxit nconvreq tol lengthFlag
          isFundamental) = .ok (maxit + 1) := by
  have hc := entropy_run_no_break_count hm h
  simp only [entropy_helper, h, Except.map]
  rw [← hc]

/-- Witness for C4's amended statement: the same non-converging run as the
counterexample produces iteration count `1 + 1`. -/
theorem c4_amended_witness :
    Except.map MexOutput.iterates
        (entropy_helper zeroMetrics idGen [] [1, 0] 1 2 (1e-9) 2 false) =
      .ok (1 + 1) := by
  refine c4_amended_nonconvergence_count zeroMetrics idGen [] [1, 0] 1 2
    (1e-9) 2 false 2 ⟨[1], [0], 0, 1, 0, 0, 0⟩ (by norm_num) ?_
  norm_num [entropy_run, initState, discountInit, iterLoop, iterStep, stepUpdate, rescale,
    update_rules, looplength, l2norm2, zeroMetrics, idGen,
    Real.sqrt_one, Real.log_one]

/-- C2: end-to-end scenario: empty generator sequence, vector `[1,0]`,
Euclidean metric (flag 2), `maxit = 5`, `nconvreq = 1`, `tol = 1e-9`, not
fundamental: the estimator returns entropy `0 = ln 1`, iteration count `2`
(convergence on the first comparison of two computed log-growth values) and
final vector `[1,0]`, for every choice of the external collaborators. -/
theorem c2_end_to_end (M : Metrics) (gen : GenAction) :
    entropy_helper M gen [] [1, 0] 5 1 (1e-9) 2 false = .ok ⟨0, 2, [1, 0]⟩ := by
  norm_num [entropy_helper, entropy_run, initState, discountInit, iterLoop, iterStep,
    stepUpdate, rescale, update_rules, looplength, l2norm2,
    Real.sqrt_one, Real.log_one]

/-- Counterexample for C5: the vector `[0,0,0,0]` has length `2m` with
`m = 2`; the code initialises the metric-0 discount to
`N/2 + 2 - 1 = 3`, not `(m/2 + 2) - 1 = 2` as the claim states. -/
theorem c5_counterexample :
    Except.map IterState.discount
        (initState zeroMetrics [0, 0, 0, 0] 0 false) = .ok 3 ∧
    (3 : ℝ) ≠ ((2 : ℝ) / 2 + 2) - 1 := by
  constructor
  · norm_num [initState, discountInit, looplength, zeroMetrics, Except.map]
  · norm_num

/-- C5 amended: for a coordinate vector of length `2m`, the discount before
the first iteration equals `(m + 2) - 1` under the intersection-number
metric (flag 0) when not fundamental, and `(m + 2) - 2` when fundamental
(the code's `n - (isFundamental ? 1 : 0) - 1` with `n = N/2 + 2 = m + 2`);
for every other metric selector the discount is `0` at initialisation and
stays `0` across every iteration. -/
theorem c5_amended_discount_formula (M : Metrics) (u : List ℝ) (m : ℕ)
    (lengthFlag : ℤ) (isFundamental : Bool) (d : ℝ)
    (hlen : u.length = 2 * m)
    (h : Except.map IterState.discount (initState M u lengthFlag isFundamental)
      = .ok d) :
    (lengthFlag = 0 →
      d = ((m : ℝ) + 2) - (if isFundamental then 1 else 0) - 1) ∧
    (lengthFlag ≠ 0 → d = 0) ∧
    (∀ (M' : Metrics) (gen : GenAction) (braidword : List ℤ) (tol : ℝ)
        (nconvreq : ℤ) (s : IterState) (p : Bool × IterState),
      s.discount = 0 →
      iterStep M' gen braidword tol nconvreq lengthFlag s = .ok p →
      (Prod.snd p).discount = 0) := by
  have hdiv : u.length / 2 = m := by omega
  cases hi : initState M u lengthFlag isFundamental with
  | error e => rw [hi] at h; exact absurd h (by simp [Except.map])
  | ok s0 =>
    rw [hi] at h
    obtain ⟨-, l, -, hs⟩ := initState_ok_elim hi
    subst hs
    simp only [Except.map, Except.ok.injEq] at h
    refine ⟨fun h0 => ?_, fun h0 => ?_, fun M' gen bw tol q s p hd hstep => ?_⟩
    · subst h0
      rw [← h]
      simp only [discountInit, if_pos rfl, hdiv]
      push_cast
      ring
    · rw [← h]
      simp [discountInit, h0]
    · obtain ⟨l', _, hp⟩ := iterStep_ok_elim hstep
      rw [hp, stepUpdate_discount]
      simp [rescale, hd]

/-- Witness for C5's amended statement at the length-4 zero vector,
metric 0, non-fundamental: the discount is `3 = (2 + 2) - 0 - 1`. -/
theorem c5_amended_witness :
    ((0 : ℤ) = 0 → (3 : ℝ) = (((2 : ℕ) : ℝ) + 2) - (if false then 1 else 0) - 1) ∧
    ((0 : ℤ) ≠ 0 → (3 : ℝ) = 0) ∧
    (∀ (M' : Metrics) (gen : GenAction) (braidword : List ℤ) (tol : ℝ)
        (nconvreq : ℤ) (s : IterState) (p : Bool × IterState),
      s.discount = 0 →
      iterStep M' gen braidword tol nconvreq 0 s = .ok p →
      (Prod.snd p).discount = 0) := by
  refine c5_amended_discount_formula zeroMetrics [0, 0, 0, 0] 2 0 false 3
    (by norm_num) ?_
  norm_num [initState, discountInit, looplength, zeroMetrics, Except.map]

/-- Counterexample for C1: under the intersection-number metric (flag 0)
with an admissible external metric satisfying the non-negativity contract
(here returning `0`), the valid input `[0,0]` produces
`currentLength = looplength - discount = 0 - 2 = -2 < 0` at the pre-loop
computation (line 133) whose value is the divisor of the first iteration. -/
theorem c1_counterexample :
    Except.map IterState.currentLength
        (initState zeroMetrics [0, 0] 0 false) = .ok (-2) ∧
    ¬ (0 : ℝ) ≤ -2 := by
  constructor
  · norm_num [initState, discountInit, looplength, zeroMetrics, Except.map]
  · norm_num

/-- C1 amended: the fatal-on-negative contract guarantees only that the raw
`looplength` value is non-negative; therefore for every metric selector
other than 0 (where the discount is `0`) the quantity
`looplength - discount` is non-negative at line 133 and stays non-negative
at line 148 on every iteration, while under metric 0 the positive discount
can drive it negative. -/
theorem c1_amended_nonneg_without_discount (M : Metrics) (gen : GenAction)
    (braidword : List ℤ) (tol : ℝ) (nconvreq lengthFlag : ℤ) (u : List ℝ)
    (isFundamental : Bool) (L : ℝ)
    (hflag : lengthFlag ≠ 0)
    (h : Except.map IterState.currentLength
        (initState M u lengthFlag isFundamental) = .ok L) :
    0 ≤ L ∧
    (∀ (s : IterState) (p : Bool × IterState), s.discount = 0 →
      iterStep M gen braidword tol nconvreq lengthFlag s = .ok p →
      (Prod.snd p).discount = 0 ∧ 0 ≤ (Prod.snd p).currentLength) := by
  constructor
  · cases hi : initState M u lengthFlag isFundamental with
    | error e => rw [hi] at h; exact absurd h (by simp [Except.map])
    | ok s0 =>
      rw [hi] at h
      obtain ⟨-, l, hl, hs⟩ := initState_ok_elim hi
      subst hs
      simp only [Except.map, Except.ok.injEq] at h
      have hln := looplength_ok_nonneg hl
      rw [← h]
      simpa [discountInit, hflag] using hln
  · intro s p hd hstep
    obtain ⟨l, hl, hp⟩ := iterStep_ok_elim hstep
    have hln := looplength_ok_nonneg hl
    constructor
    · rw [hp, stepUpdate_discount]
      simp [rescale, hd]
    · rw [hp, stepUpdate_currentLength]
      simp only [rescale, hd, zero_div]
      linarith

/-- Witness for C1's amended statement: Euclidean metric on `[1,0]` gives
initial `currentLength = 1 ≥ 0`, and one concrete discount-free iteration
keeps the discount at `0` and the length at `1 ≥ 0`. -/
theorem c1_amended_witness :
    (0 : ℝ) ≤ 1 ∧
    (((false, ⟨[1], [0], 0, 1, 0, 0, 0⟩) : Bool × IterState).2.discount = 0 ∧
      (0 : ℝ) ≤ ((false, (⟨[1], [0], 0, 1, 0, 0, 0⟩ : IterState)) :
        Bool × IterState).2.currentLength) := by
  have h := c1_amended_nonneg_without_discount zeroMetrics idGen [] 1 5 2
    [1, 0] false 1 (by norm_num)
    (by norm_num [initState, discountInit, looplength, l2norm2, zeroMetrics,
      Except.map, Real.sqrt_one])
  exact ⟨h.1, h.2 ⟨[1], [0], 0, 1, 0, 0, -1⟩ (false, ⟨[1], [0], 0, 1, 0, 0, 0⟩)
    rfl (by norm_num [iterStep, stepUpdate, rescale, update_rules, looplength,
      l2norm2, zeroMetrics, idGen, Real.sqrt_one, Real.log_one])⟩

/-- C9: for every metric selector outside the three recognized values
{0, 1, 2} and every well-shaped input, the whole call fails with the fatal
invalid-metric condition `badlengthflag` (raised at the first `looplength`
consultation, before any iteration), and no output is produced. -/
theorem c9_invalid_metric_fatal (M : Metrics) (gen : GenAction)
    (braidword : List ℤ) (u : List ℝ) (maxit nconvreq : ℤ) (tol : ℝ)
    (isFundamental : Bool) (lengthFlag : ℤ)
    (h0 : lengthFlag ≠ 0) (h1 : lengthFlag ≠ 1) (h2 : lengthFlag ≠ 2)
    (heven : u.length % 2 = 0) :
    entropy_helper M gen braidword u maxit nconvreq tol lengthFlag
      isFundamental = .error .badlengthflag := by
  have hinit : initState M u lengthFlag isFundamental =
      .error .badlengthflag := by
    simp only [initState]
    rw [if_neg (by omega)]
    simp [looplength, h0, h1, h2]
  simp [entropy_helper, entropy_run, hinit]

/-- Witness for C9 at metric selector 5 on the vector `[1,0]`. -/
theorem c9_witness :
    entropy_helper zeroMetrics idGen [] [1, 0] 10 1 (1e-9) 5 false =
      .error .badlengthflag :=
  c9_invalid_metric_fatal zeroMetrics idGen [] [1, 0] 10 1 (1e-9) false 5
    (by norm_num) (by norm_num) (by norm_num) (by norm_num)

/-- C10: the previous log-growth estimate is initialised to the sentinel
`-1`, and the first iteration's estimate is compared against it like any
other previous value: whenever the first iteration's log-length `e` lies
within `tol` of `-1` and `nconvreq = 1`, the run exits through the break on
the first comparison with returned iteration count `1`. -/
theorem c10_sentinel_first_iteration (M : Metrics) (gen : GenAction)
    (braidword : List ℤ) (u : List ℝ) (maxit : ℤ) (tol : ℝ)
    (lengthFlag : ℤ) (isFundamental : Bool) (s0 : IterState) (e : ℝ)
    (h0 : initState M u lengthFlag isFundamental = .ok s0)
    (hm : 1 ≤ maxit)
    (h1 : Except.map (fun p => (Prod.snd p).entr)
        (iterStep M gen braidword tol 1 lengthFlag s0) = .ok e)
    (h3 : |e - (-1)| < tol) :
    s0.entr0 = -1 ∧
    Except.map (fun r => r.1)
        (entropy_run M gen braidword u maxit 1 tol lengthFlag isFundamental)
      = .ok 1 := by
  obtain ⟨-, l0, -, hs⟩ := initState_ok_elim h0
  have he0 : s0.entr0 = -1 := by rw [hs]
  have hn0 : s0.nconv = 0 := by rw [hs]
  refine ⟨he0, ?_⟩
  cases hi : iterStep M gen braidword tol 1 lengthFlag s0 with
  | error err => rw [hi] at h1; exact absurd h1 (by simp [Except.map])
  | ok p =>
    rw [hi] at h1
    simp only [Except.map, Except.ok.injEq] at h1
    obtain ⟨l, hl, hp⟩ := iterStep_ok_elim hi
    have hbrk : p.1 = true := by
      rw [hp, stepUpdate_brk]
      have he : Real.log (l - (rescale s0.currentLength s0.a s0.b
          s0.discount).2.2) = e := by
        rw [← h1, hp, stepUpdate_entr]
      rw [he, he0, hn0]
      exact ⟨h3, by omega⟩
    have hfuel : maxit.toNat = (maxit.toNat - 1) + 1 := by omega
    unfold entropy_run
    rw [h0, hfuel]
    simp only [iterLoop]
    rw [hi]
    have hp1 : p = (true, p.2) := by
      obtain ⟨b, s'⟩ := p
      simp only at hbrk
      subst hbrk
      rfl
    rw [hp1]
    simp [Except.map]

/-- Witness for C10: Euclidean metric on `[1,0]`, empty braid word,
`maxit = 1`, `nconvreq = 1`, `tol = 2`: the first estimate `0` is within
tolerance of the sentinel `-1`, and the run returns iteration count 1. -/
theorem c10_witness :
    (⟨[1], [0], 0, 1, 0, 0, -1⟩ : IterState).entr0 = -1 ∧
    Except.map (fun r => r.1)
        (entropy_run zeroMetrics idGen [] [1, 0] 1 1 2 2 false) = .ok 1 := by
  refine c10_sentinel_first_iteration zeroMetrics idGen [] [1, 0] 1 2 2 false
    ⟨[1], [0], 0, 1, 0, 0, -1⟩ 0 ?_ (by norm_num) ?_ (by norm_num)
  · norm_num [initState, discountInit, looplength, l2norm2, zeroMetrics,
      Real.sqrt_one]
  · norm_num [iterStep, stepUpdate, rescale, update_rules, looplength,
      l2norm2, zeroMetrics, idGen, Except.map, Real.sqrt_one, Real.log_one]

end Braidlab
